import Mathlib

/-!
Verification of the note-taking application's core (Note Store, Save Policy,
View Deriver) against its specification.  The definitions below are shallow
embeddings of the TypeScript source: `saveCurrentNote`, `openNote` and
`groupedNotes` follow the reference `App` component in `src/unnamed/part_001`,
`filteredNotes` and `handleAIAction` follow the `App` component in
`src/unnamed/part_000`, and `processNoteWithAI` follows
`src/services/geminiService.ts`.  The storage collaborator (`getNotes`,
`saveNote`, `upsert`) follows `services/storageService`, whose source is the
second document of `src/components/IOSComponents.tsx`, against the `notes`
table of the SQL schema appended to `src/unnamed/part_001`.
-/

/-- `User` record from `types.ts`. -/
structure User where
  id : String
  email : String
deriving DecidableEq, Repr

/-- `Note` record from `types.ts` (`updated_at` is the ISO string Supabase returns). -/
structure Note where
  id : String
  user_id : String
  title : String
  content : String
  updated_at : String
deriving DecidableEq, Repr

/-- `AppView` from `types.ts`. -/
inductive AppView where
  | AUTH
  | LIST
  | EDITOR
deriving DecidableEq, Repr

/-- `AIActionType` from `types.ts`. -/
inductive AIActionType where
  | FIX_GRAMMAR
  | SUMMARIZE
  | CONTINUE_WRITING
deriving DecidableEq, Repr

/-- Does the character list `l` start with `q`?  (Helper for modelling
JavaScript's `String.prototype.includes`.) -/
def charsHasPre : List Char → List Char → Bool
  | _, [] => true
  | [], _ :: _ => false
  | c :: cs, d :: ds => c == d && charsHasPre cs ds

/-- Does the character list `l` contain `q` as a contiguous run? -/
def charsHasSub : List Char → List Char → Bool
  | [], q => charsHasPre [] q
  | c :: cs, q => charsHasPre (c :: cs) q || charsHasSub cs q

/-- Model of JavaScript `s.includes(q)`: substring containment. -/
def jsIncludes (s q : String) : Bool :=
  charsHasSub s.data q.data

/-- Model of JavaScript `s.toLowerCase()`: lowercase each character. -/
def jsToLower (s : String) : String :=
  String.mk (s.data.map Char.toLower)

/-- Model of JavaScript `s.trim()`: remove whitespace from both ends. -/
def jsTrim (s : String) : String :=
  String.mk (((s.data.dropWhile Char.isWhitespace).reverse.dropWhile Char.isWhitespace).reverse)

/-- Model of JavaScript `s.split('\n')[0]`: the characters before the first
newline (the whole string when it has no newline). -/
def firstLine (s : String) : String :=
  String.mk (s.data.takeWhile (fun c => c != '\n'))

/-- Model of JavaScript `s.substring(0, n)`: the first `n` characters. -/
def substring0 (s : String) (n : Nat) : String :=
  String.mk (s.data.take n)

/-- The search predicate used by both `App` variants: an empty query accepts
every note, otherwise the lowercased query must occur in the lowercased title
or content (`src/unnamed/part_001`, inside `groupedNotes`). -/
def searchPred (searchQuery : String) (n : Note) : Bool :=
  if searchQuery = "" then true
  else
    let q := jsToLower searchQuery
    jsIncludes (jsToLower n.title) q || jsIncludes (jsToLower n.content) q

/-- `filteredNotes` from `src/unnamed/part_000`: empty query returns the
collection itself, otherwise it filters by the case-insensitive substring
match on title or content. -/
def filteredNotes (notes : List Note) (searchQuery : String) : List Note :=
  if searchQuery = "" then notes
  else
    let lowerQ := jsToLower searchQuery
    notes.filter (fun n =>
      jsIncludes (jsToLower n.title) lowerQ || jsIncludes (jsToLower n.content) lowerQ)

/-- `JSDate`: the view of a JavaScript `Date` used by `groupedNotes` in
`src/unnamed/part_001` — the calendar fields read by `getDate()`, `getMonth()`
and `getFullYear()`, and the epoch-milliseconds value read by `getTime()`. -/
structure JSDate where
  day : Int
  month : Int
  year : Int
  time : Int
deriving DecidableEq, Repr

/-- `isSameDay` from `groupedNotes` in `src/unnamed/part_001`. -/
def isSameDay (d1 d2 : JSDate) : Bool :=
  d1.day == d2.day && d1.month == d2.month && d1.year == d2.year

/-- The four recency buckets built by `groupedNotes` in `src/unnamed/part_001`
(iteration order of the object literal: Today, Yesterday, Previous 30 Days,
Older). -/
structure NoteGroups where
  today : List Note
  yesterday : List Note
  prev30 : List Note
  older : List Note
deriving DecidableEq, Repr

/-- The body of the `forEach` in `groupedNotes` (`src/unnamed/part_001`):
push the note into the first bucket whose condition holds.  `parse` models
`new Date(note.updated_at)`; `today` and `yesterday` are the reference dates
computed at the top of `groupedNotes`. -/
def groupStep (today yesterday : JSDate) (parse : String → JSDate)
    (g : NoteGroups) (note : Note) : NoteGroups :=
  let date := parse note.updated_at
  if isSameDay date today then { g with today := g.today ++ [note] }
  else if isSameDay date yesterday then { g with yesterday := g.yesterday ++ [note] }
  else if today.time - date.time < 30 * 24 * 60 * 60 * 1000 then
    { g with prev30 := g.prev30 ++ [note] }
  else { g with older := g.older ++ [note] }

/-- `groupedNotes` from `src/unnamed/part_001`: on an empty collection the
source returns the empty object `{}` (modelled as four empty buckets);
otherwise it filters by the search query and distributes the filtered notes
over the four buckets in input order. -/
def groupedNotes (today yesterday : JSDate) (parse : String → JSDate)
    (notes : List Note) (searchQuery : String) : NoteGroups :=
  if notes.length = 0 then ⟨[], [], [], []⟩
  else
    let filtered := notes.filter (searchPred searchQuery)
    filtered.foldl (groupStep today yesterday parse) ⟨[], [], [], []⟩

/-- Bucket condition for `Today` (first branch of the `forEach` chain). -/
def inToday (today : JSDate) (parse : String → JSDate) (n : Note) : Bool :=
  isSameDay (parse n.updated_at) today

/-- Bucket condition for `Yesterday` (second branch: not today, same calendar
day as yesterday). -/
def inYesterday (today yesterday : JSDate) (parse : String → JSDate) (n : Note) : Bool :=
  !inToday today parse n && isSameDay (parse n.updated_at) yesterday

/-- Bucket condition for `Previous 30 Days` (third branch: not today, not
yesterday, strictly less than 30 days of elapsed wall-clock time). -/
def inPrev30 (today yesterday : JSDate) (parse : String → JSDate) (n : Note) : Bool :=
  !inToday today parse n && !isSameDay (parse n.updated_at) yesterday &&
    decide (today.time - (parse n.updated_at).time < 30 * 24 * 60 * 60 * 1000)

/-- Bucket condition for `Older` (the `else` branch). -/
def inOlder (today yesterday : JSDate) (parse : String → JSDate) (n : Note) : Bool :=
  !inToday today parse n && !isSameDay (parse n.updated_at) yesterday &&
    !decide (today.time - (parse n.updated_at).time < 30 * 24 * 60 * 60 * 1000)

/-- The effect of `supabase.from('notes').upsert(note)` issued by `saveNote`
in `services/storageService` (the second document of
`src/components/IOSComponents.tsx`), on the `notes` table created by the SQL
schema appended to `src/unnamed/part_001`: the row is keyed by the `id`
primary key, and the `on_note_updated` trigger overwrites `updated_at` with
the server clock (`serverNow`) before every update; on an insert the
client-supplied `updated_at` is stored as given. -/
def upsert (serverNow : String) (store : List Note) (n : Note) : List Note :=
  if store.any (fun m => m.id == n.id) then
    store.map (fun m => if m.id == n.id then { n with updated_at := serverNow } else m)
  else
    store ++ [n]

/-- Insert a note into a list sorted by descending `updated_at` (helper for
the `order('updated_at', descending)` of `getNotes`). -/
def insertDesc (n : Note) : List Note → List Note
  | [] => [n]
  | m :: ms => if n.updated_at ≥ m.updated_at then n :: m :: ms else m :: insertDesc n ms

/-- Sort a list of notes most-recently-updated first (helper for the
`order('updated_at', descending)` of `getNotes`). -/
def sortByRecency : List Note → List Note
  | [] => []
  | n :: ns => insertDesc n (sortByRecency ns)

/-- `getNotes` from `services/storageService` (the second document of
`src/components/IOSComponents.tsx`): select the rows of the `notes` table
whose `user_id` is the caller's id, ordered by `updated_at` descending.
`fetchOk` models whether the Supabase query succeeds; on a query error or a
thrown network error the source logs and returns the empty list — it never
throws to its caller. -/
def getNotes (fetchOk : Bool) (store : List Note) (userId : String) : List Note :=
  if fetchOk then sortByRecency (store.filter (fun n => n.user_id == userId))
  else []

/-- `saveNote` from `services/storageService` (the second document of
`src/components/IOSComponents.tsx`): upsert the note into the `notes` table;
on a write error (or network error) the source throws, modelled as
`Except.error`.  `writeOk` models whether the Supabase upsert succeeds. -/
def saveNote (writeOk : Bool) (serverNow : String) (store : List Note) (n : Note) :
    Except String (List Note) :=
  if writeOk then Except.ok (upsert serverNow store n)
  else Except.error "Failed to connect to server"

/-- The outcome `saveCurrentNote` reports: the guard returned early (no
signed-in user, or the empty draft was discarded), the write-and-reload
succeeded, or the write failed and was caught. -/
inductive SaveResult where
  | noUser
  | discarded
  | saved
  | failed
deriving DecidableEq, Repr

/-- The slice of the `App` component state (`src/unnamed/part_001`) that the
note operations read and write, together with the rows of the remote `notes`
table backing the storage-service calls. -/
structure AppState where
  currentUser : Option User
  notes : List Note
  selectedNote : Option Note
  editorTitle : String
  editorContent : String
  currentView : AppView
  store : List Note
deriving DecidableEq, Repr

/-- `openNote` from `src/unnamed/part_001`. -/
def openNote (s : AppState) (note : Note) : AppState :=
  { s with
    selectedNote := some note
    editorTitle := note.title
    editorContent := note.content
    currentView := AppView.EDITOR }

/-- `saveCurrentNote` from `src/unnamed/part_001` (the reference save
behavior).  `freshId` models `crypto.randomUUID()`, `nowIso` models
`new Date().toISOString()`, `serverNow` the server clock of the update
trigger, `writeOk` whether `saveNote`'s upsert succeeds and `fetchOk` whether
the reload's fetch succeeds.  A `saveNote` throw is caught (`alert`) and
reported as `SaveResult.failed`; `loadNotes`/`getNotes` never throws, so
after a successful write the reload always replaces the local collection. -/
def saveCurrentNote (shouldExit : Bool) (freshId nowIso serverNow : String)
    (writeOk fetchOk : Bool) (s : AppState) : AppState × SaveResult :=
  match s.currentUser with
  | none => (s, SaveResult.noUser)
  | some u =>
    let titleToSave := jsTrim s.editorTitle
    let contentToSave := s.editorContent
    if titleToSave = "" ∧ jsTrim contentToSave = "" then
      ({ s with currentView := if shouldExit then AppView.LIST else s.currentView },
       SaveResult.discarded)
    else
      let titleToSave :=
        if titleToSave = "" ∧ contentToSave ≠ "" then
          let t := substring0 (firstLine contentToSave) 30
          if t = "" then "New Note" else t
        else if titleToSave = "" then "New Note"
        else titleToSave
      let noteToSave : Note :=
        { id := match s.selectedNote with
                | some sel => sel.id
                | none => freshId
          user_id := u.id
          title := titleToSave
          content := contentToSave
          updated_at := nowIso }
      match saveNote writeOk serverNow s.store noteToSave with
      | Except.error _ => (s, SaveResult.failed)
      | Except.ok store =>
        let notes := getNotes fetchOk store u.id
        ({ s with
            store := store
            notes := notes
            currentView := if shouldExit then AppView.LIST else s.currentView
            selectedNote := if shouldExit then s.selectedNote else some noteToSave },
         SaveResult.saved)

/-- The canonical note `saveCurrentNote` builds on its write path (the
`titleToSave`/`noteToSave` lets of `src/unnamed/part_001`), exposed as a
function so the write path can be described equationally. -/
def resolvedNote (freshId nowIso : String) (s : AppState) (u : User) : Note :=
  { id := match s.selectedNote with
          | some sel => sel.id
          | none => freshId
    user_id := u.id
    title :=
      if jsTrim s.editorTitle = "" ∧ s.editorContent ≠ "" then
        (if substring0 (firstLine s.editorContent) 30 = "" then "New Note"
         else substring0 (firstLine s.editorContent) 30)
      else if jsTrim s.editorTitle = "" then "New Note"
      else jsTrim s.editorTitle
    content := s.editorContent
    updated_at := nowIso }

/-- `processNoteWithAI` from `src/services/geminiService.ts`.  `apiKey`
models `process.env.API_KEY`; `outcome` models the generate-content call:
`Except.error ()` is a thrown provider error, `Except.ok t` a response whose
optional `text` field is `t`.  The source returns the content unchanged when
the key is missing, rethrows provider errors as a transform error, and
returns `response.text?.trim() || content`. -/
def processNoteWithAI (apiKey : Option String) (outcome : Except Unit (Option String))
    (content : String) (_action : AIActionType) : Except String String :=
  match apiKey with
  | none => Except.ok content
  | some _ =>
    match outcome with
    | Except.error _ => Except.error "Failed to process text with AI"
    | Except.ok t =>
      let r := match t with
               | none => ""
               | some txt => jsTrim txt
      Except.ok (if r = "" then content else r)

/-- `handleAIAction` from `src/unnamed/part_000`, restricted to the editor
content it transforms: an empty editor returns immediately; a transform
failure is caught (`alert`) and the content is left unchanged; otherwise the
result replaces the content. -/
def handleAIAction (apiKey : Option String) (outcome : Except Unit (Option String))
    (editorContent : String) (action : AIActionType) : String :=
  if editorContent = "" then editorContent
  else
    match processNoteWithAI apiKey outcome editorContent action with
    | Except.error _ => editorContent
    | Except.ok r => r

/-- Concrete sample principal for witness statements. -/
def demoUser : User :=
  { id := "U1", email := "u1@example.com" }

/-- Concrete sample note for witness statements. -/
def demoNote : Note :=
  { id := "N1", user_id := "U1", title := "Groceries", content := "Buy milk",
    updated_at := "2024-01-01T00:00:00Z" }

/-- Concrete sample application state for witness statements. -/
def demoState : AppState :=
  { currentUser := some demoUser
    notes := [demoNote]
    selectedNote := none
    editorTitle := ""
    editorContent := ""
    currentView := AppView.LIST
    store := [demoNote] }

/-! ## Lemmas about the string models -/

theorem charsHasPre_iff (q : List Char) : ∀ l : List Char,
    charsHasPre l q = true ↔ ∃ t, l = q ++ t := by
  induction q with
  | nil =>
    intro l
    constructor
    · intro _; exact ⟨l, rfl⟩
    · intro _; cases l <;> rfl
  | cons d ds ih =>
    intro l
    cases l with
    | nil =>
      simp only [charsHasPre]
      constructor
      · intro h; exact absurd h (by simp)
      · rintro ⟨t, ht⟩; simp at ht
    | cons c cs =>
      simp only [charsHasPre, Bool.and_eq_true, beq_iff_eq]
      constructor
      · rintro ⟨rfl, h⟩
        obtain ⟨t, rfl⟩ := (ih cs).mp h
        exact ⟨t, rfl⟩
      · rintro ⟨t, ht⟩
        injection ht with h1 h2
        exact ⟨h1, (ih cs).mpr ⟨t, h2⟩⟩

theorem charsHasSub_iff : ∀ l q : List Char,
    charsHasSub l q = true ↔ ∃ s t, l = s ++ q ++ t := by
  intro l
  induction l with
  | nil =>
    intro q
    simp only [charsHasSub]
    rw [charsHasPre_iff]
    constructor
    · rintro ⟨t, ht⟩; exact ⟨[], t, ht⟩
    · rintro ⟨s, t, hst⟩
      have : s = [] ∧ q ++ t = [] := by
        constructor
        · cases s with
          | nil => rfl
          | cons a as => simp at hst
        · cases s with
          | nil => simpa using hst.symm
          | cons a as => simp at hst
      exact ⟨t, by simpa [this.1] using hst⟩
  | cons c cs ih =>
    intro q
    simp only [charsHasSub, Bool.or_eq_true]
    constructor
    · rintro (h | h)
      · obtain ⟨t, ht⟩ := (charsHasPre_iff q _).mp h
        exact ⟨[], t, by simpa using ht⟩
      · obtain ⟨s, t, rfl⟩ := (ih q).mp h
        exact ⟨c :: s, t, rfl⟩
    · rintro ⟨s, t, hst⟩
      cases s with
      | nil =>
        left
        exact (charsHasPre_iff q _).mpr ⟨t, by simpa using hst⟩
      | cons a as =>
        right
        injection hst with h1 h2
        exact (ih q).mpr ⟨as, t, h2⟩

theorem jsIncludes_iff (s q : String) :
    jsIncludes s q = true ↔ ∃ pre post, s.data = pre ++ q.data ++ post := by
  exact charsHasSub_iff s.data q.data

theorem jsToLower_empty_data : (jsToLower "").data = [] := by decide

theorem jsTrim_of_empty : jsTrim "" = "" := by decide

/-! ## C5: search filter -/

/-- C5: the search filter returns a subsequence of the collection (so order is
preserved and the result is a subset); the empty query returns the collection
unfiltered; and for every query the members of the result are exactly the
notes of the collection whose lowercased title or content contains the
lowercased query as a contiguous substring. -/
theorem c5_search_filter (notes : List Note) (q : String) :
    List.Sublist (filteredNotes notes q) notes ∧
    filteredNotes notes "" = notes ∧
    ∀ n : Note, n ∈ filteredNotes notes q ↔
      n ∈ notes ∧
      ((∃ pre post, (jsToLower n.title).data = pre ++ (jsToLower q).data ++ post) ∨
       (∃ pre post, (jsToLower n.content).data = pre ++ (jsToLower q).data ++ post)) := by
  refine ⟨?_, by simp [filteredNotes], ?_⟩
  · by_cases hq : q = ""
    · simp [filteredNotes, hq]
    · simp only [filteredNotes, if_neg hq]
      exact List.filter_sublist notes
  · intro n
    by_cases hq : q = ""
    · subst hq
      simp only [filteredNotes, if_pos rfl]
      constructor
      · intro hn
        refine ⟨hn, Or.inl ⟨(jsToLower n.title).data, [], ?_⟩⟩
        rw [jsToLower_empty_data]
        simp
      · exact fun h => h.1
    · simp only [filteredNotes, if_neg hq, List.mem_filter, Bool.or_eq_true]
      rw [jsIncludes_iff, jsIncludes_iff]

/-! ## C8: View Deriver determinism -/

/-- C8: the View Deriver is a pure function of the collection and the query —
two calls with equal collections and equal queries produce identical filtered
and grouped outputs (the embedding is a function of its arguments, so neither
call can mutate the collection). -/
theorem c8_view_deriver_deterministic (today yesterday : JSDate)
    (parse : String → JSDate) (notes notes2 : List Note) (q q2 : String)
    (hnotes : notes = notes2) (hq : q = q2) :
    filteredNotes notes q = filteredNotes notes2 q2 ∧
    groupedNotes today yesterday parse notes q =
      groupedNotes today yesterday parse notes2 q2 := by
  subst hnotes; subst hq; exact ⟨rfl, rfl⟩

/-- Witness for C8 at a concrete collection and query. -/
theorem c8_view_deriver_deterministic_witness :
    filteredNotes [] "a" = filteredNotes [] "a" ∧
    groupedNotes ⟨1, 1, 2024, 0⟩ ⟨0, 1, 2024, 0⟩ (fun _ => ⟨1, 1, 2024, 0⟩) [] "a" =
      groupedNotes ⟨1, 1, 2024, 0⟩ ⟨0, 1, 2024, 0⟩ (fun _ => ⟨1, 1, 2024, 0⟩) [] "a" :=
  c8_view_deriver_deterministic ⟨1, 1, 2024, 0⟩ ⟨0, 1, 2024, 0⟩
    (fun _ => ⟨1, 1, 2024, 0⟩) [] [] "a" "a" rfl rfl

/-! ## C9: text-transform failure preservation -/

/-- C9: the editor content survives every Text-Transform Collaborator failure
— a missing API key, a thrown provider error, a missing response text, or an
empty/whitespace transformed result all leave the content unchanged, and the
content is only ever replaced by a non-empty (trimmed) transformed text. -/
theorem c9_transform_failure_preserves (apiKey : Option String)
    (outcome : Except Unit (Option String)) (content : String) (action : AIActionType) :
    handleAIAction apiKey outcome content action = content ∨
    ∃ txt : String, apiKey ≠ none ∧ outcome = Except.ok (some txt) ∧
      jsTrim txt ≠ "" ∧ jsTrim txt ≠ content ∧
      handleAIAction apiKey outcome content action = jsTrim txt := by
  by_cases hc : content = ""
  · left; simp [handleAIAction, hc]
  · cases apiKey with
    | none => left; simp [handleAIAction, processNoteWithAI, hc]
    | some k =>
      cases outcome with
      | error e => left; simp [handleAIAction, processNoteWithAI, hc]
      | ok t =>
        cases t with
        | none => left; simp [handleAIAction, processNoteWithAI, hc]
        | some txt =>
          by_cases htr : jsTrim txt = ""
          · left; simp [handleAIAction, processNoteWithAI, hc, htr]
          · by_cases heq : jsTrim txt = content
            · left; simp [handleAIAction, processNoteWithAI, hc, htr, heq]
            · right
              exact ⟨txt, by simp, rfl, htr, heq,
                by simp [handleAIAction, processNoteWithAI, hc, htr]⟩
/-! ## Lemmas about the save operation and the persistence model -/

theorem substring0_eq_empty_iff (x : String) : substring0 x 30 = "" ↔ x = "" := by
  unfold substring0
  constructor
  · intro h
    have hd : x.data.take 30 = [] := by
      have := congrArg String.data h
      simpa using this
    have hx : x.data = [] := by
      rcases List.take_eq_nil_iff.mp hd with h30 | hnil
      · exact absurd h30 (by norm_num)
      · exact hnil
    cases x
    simp_all
  · rintro rfl
    rfl

theorem ne_empty_of_jsTrim_ne (s : String) (h : jsTrim s ≠ "") : s ≠ "" := by
  intro hs
  subst hs
  exact h jsTrim_of_empty

theorem mem_insertDesc (a n : Note) (l : List Note) :
    a ∈ insertDesc n l ↔ a = n ∨ a ∈ l := by
  induction l with
  | nil => simp [insertDesc]
  | cons m ms ih =>
    simp only [insertDesc]
    split
    · simp
    · simp only [List.mem_cons, ih]
      tauto

theorem mem_sortByRecency (a : Note) (l : List Note) :
    a ∈ sortByRecency l ↔ a ∈ l := by
  induction l with
  | nil => simp [sortByRecency]
  | cons n ns ih =>
    simp only [sortByRecency, mem_insertDesc, ih, List.mem_cons]

theorem upsert_keeps_note_fields (srv : String) (store : List Note) (n : Note) :
    ∃ m ∈ upsert srv store n,
      m.id = n.id ∧ m.title = n.title ∧ m.content = n.content ∧ m.user_id = n.user_id := by
  unfold upsert
  split
  · next h =>
    obtain ⟨m, hm, hid⟩ := List.any_eq_true.mp h
    exact ⟨{ n with updated_at := srv }, List.mem_map.mpr ⟨m, hm, by simp [hid]⟩,
      rfl, rfl, rfl, rfl⟩
  · exact ⟨n, by simp, rfl, rfl, rfl, rfl⟩

theorem mem_getNotes (store : List Note) (uid : String) (n : Note) :
    n ∈ getNotes true store uid ↔ n ∈ store ∧ n.user_id = uid := by
  unfold getNotes
  rw [if_pos rfl, mem_sortByRecency, List.mem_filter]
  simp

theorem saveCurrentNote_discard_eq (e : Bool) (fid now srv : String) (w f : Bool)
    (s : AppState) (u : User) (hu : s.currentUser = some u)
    (ht : jsTrim s.editorTitle = "") (hc : jsTrim s.editorContent = "") :
    saveCurrentNote e fid now srv w f s =
      ({ s with currentView := if e then AppView.LIST else s.currentView },
       SaveResult.discarded) := by
  simp [saveCurrentNote, hu, ht, hc]

theorem saveCurrentNote_write_eq (e : Bool) (fid now srv : String) (f : Bool)
    (s : AppState) (u : User) (hu : s.currentUser = some u)
    (hne : ¬(jsTrim s.editorTitle = "" ∧ jsTrim s.editorContent = "")) :
    saveCurrentNote e fid now srv true f s =
      ({ s with
          store := upsert srv s.store (resolvedNote fid now s u)
          notes := getNotes f (upsert srv s.store (resolvedNote fid now s u)) u.id
          currentView := if e then AppView.LIST else s.currentView
          selectedNote := if e then s.selectedNote else some (resolvedNote fid now s u) },
       SaveResult.saved) := by
  simp only [saveCurrentNote, saveNote, hu]
  rw [if_neg hne]
  rfl

/-! ## C1: auto-title inference -/

/-- C1: when the trimmed draft title is empty and the trimmed draft content is
non-empty, the successful save writes a note whose title is the first line of
the content truncated to 30 characters — falling back to "New Note" when that
first line is empty — and whose content is the draft content verbatim. -/
theorem c1_auto_title_inference (e : Bool) (fid now srv : String) (f : Bool)
    (s : AppState) (u : User) (hu : s.currentUser = some u)
    (ht : jsTrim s.editorTitle = "") (hc : jsTrim s.editorContent ≠ "") :
    (saveCurrentNote e fid now srv true f s).2 = SaveResult.saved ∧
    ∃ n : Note,
      (saveCurrentNote e fid now srv true f s).1.store = upsert srv s.store n ∧
      n.title = (if firstLine s.editorContent = "" then "New Note"
                 else substring0 (firstLine s.editorContent) 30) ∧
      n.content = s.editorContent := by
  have hne : ¬(jsTrim s.editorTitle = "" ∧ jsTrim s.editorContent = "") := fun h => hc h.2
  have hcne : s.editorContent ≠ "" := ne_empty_of_jsTrim_ne _ hc
  rw [saveCurrentNote_write_eq e fid now srv f s u hu hne]
  refine ⟨rfl, resolvedNote fid now s u, rfl, ?_, rfl⟩
  simp only [resolvedNote]
  rw [if_pos ⟨ht, hcne⟩]
  by_cases hfl : firstLine s.editorContent = ""
  · rw [if_pos ((substring0_eq_empty_iff _).mpr hfl), if_pos hfl]
  · rw [if_neg (fun h => hfl ((substring0_eq_empty_iff _).mp h)), if_neg hfl]

/-- Witness for C1: saving the draft `("", "Hello world\nmore text")` yields
title "Hello world" and the untouched content. -/
theorem c1_auto_title_inference_witness :
    (jsTrim "" = "" ∧ jsTrim "Hello world\nmore text" ≠ "") ∧
    ((saveCurrentNote true "id-1" "2024-01-02T00:00:00Z" "2024-01-02T00:00:01Z" true true
        { demoState with editorTitle := "", editorContent := "Hello world\nmore text" }).2 =
      SaveResult.saved ∧
     ∃ n : Note,
       (saveCurrentNote true "id-1" "2024-01-02T00:00:00Z" "2024-01-02T00:00:01Z" true true
           { demoState with editorTitle := "", editorContent := "Hello world\nmore text" }).1.store =
         upsert "2024-01-02T00:00:01Z"
           ({ demoState with
               editorTitle := "",
               editorContent := "Hello world\nmore text" } : AppState).store n ∧
       n.title = (if firstLine "Hello world\nmore text" = "" then "New Note"
                  else substring0 (firstLine "Hello world\nmore text") 30) ∧
       n.content = "Hello world\nmore text") :=
  ⟨⟨by decide, by decide⟩,
   c1_auto_title_inference true "id-1" "2024-01-02T00:00:00Z" "2024-01-02T00:00:01Z" true
     { demoState with editorTitle := "", editorContent := "Hello world\nmore text" }
     demoUser rfl (by decide) (by decide)⟩

/-! ## C2: save failure atomicity -/

/-- C2: when the Persistence Collaborator's write fails, `saveCurrentNote`
returns the application state exactly as it was (in particular the local
collection and the remote store are untouched) and reports the caught failure
as a save error instead of an uncaught fault. -/
theorem c2_save_failure_atomicity (e : Bool) (fid now srv : String) (f : Bool)
    (s : AppState) (u : User) (hu : s.currentUser = some u)
    (hne : ¬(jsTrim s.editorTitle = "" ∧ jsTrim s.editorContent = "")) :
    saveCurrentNote e fid now srv false f s = (s, SaveResult.failed) := by
  simp only [saveCurrentNote, saveNote, hu]
  rw [if_neg hne]
  rfl

/-- Witness for C2 at a concrete draft whose write fails. -/
theorem c2_save_failure_atomicity_witness :
    ¬(jsTrim "Title" = "" ∧ jsTrim "body" = "") ∧
    saveCurrentNote true "id-2" "2024-01-02T00:00:00Z" "2024-01-02T00:00:01Z" false true
        { demoState with editorTitle := "Title", editorContent := "body" } =
      ({ demoState with editorTitle := "Title", editorContent := "body" },
       SaveResult.failed) :=
  ⟨by decide,
   c2_save_failure_atomicity true "id-2" "2024-01-02T00:00:00Z" "2024-01-02T00:00:01Z" true
     { demoState with editorTitle := "Title", editorContent := "body" } demoUser rfl
     (by decide)⟩

/-! ## C3: discard policy -/

/-- C3: a save whose trimmed title and trimmed content are both empty is a
discard — the local collection and the remote store are unchanged (no write
is issued) and the operation returns immediately with the discard outcome. -/
theorem c3_discard_policy (e : Bool) (fid now srv : String) (w f : Bool)
    (s : AppState) (u : User) (hu : s.currentUser = some u)
    (ht : jsTrim s.editorTitle = "") (hc : jsTrim s.editorContent = "") :
    (saveCurrentNote e fid now srv w f s).1.notes = s.notes ∧
    (saveCurrentNote e fid now srv w f s).1.store = s.store ∧
    (saveCurrentNote e fid now srv w f s).2 = SaveResult.discarded := by
  rw [saveCurrentNote_discard_eq e fid now srv w f s u hu ht hc]
  exact ⟨rfl, rfl, rfl⟩

/-- Witness for C3: the all-whitespace draft `("  ", " \n ")` is discarded. -/
theorem c3_discard_policy_witness :
    (jsTrim "  " = "" ∧ jsTrim " \n " = "") ∧
    ((saveCurrentNote true "id-3" "2024-01-02T00:00:00Z" "2024-01-02T00:00:01Z" true true
        { demoState with editorTitle := "  ", editorContent := " \n " }).1.notes =
      ({ demoState with editorTitle := "  ", editorContent := " \n " } : AppState).notes ∧
     (saveCurrentNote true "id-3" "2024-01-02T00:00:00Z" "2024-01-02T00:00:01Z" true true
        { demoState with editorTitle := "  ", editorContent := " \n " }).1.store =
      ({ demoState with editorTitle := "  ", editorContent := " \n " } : AppState).store ∧
     (saveCurrentNote true "id-3" "2024-01-02T00:00:00Z" "2024-01-02T00:00:01Z" true true
        { demoState with editorTitle := "  ", editorContent := " \n " }).2 =
      SaveResult.discarded) :=
  ⟨⟨by decide, by decide⟩,
   c3_discard_policy true "id-3" "2024-01-02T00:00:00Z" "2024-01-02T00:00:01Z" true true
     { demoState with editorTitle := "  ", editorContent := " \n " } demoUser rfl
     (by decide) (by decide)⟩

/-! ## C6: explicit-title branch -/

/-- C6: when the trimmed draft title is non-empty, the successful save writes
a note whose title is exactly the trimmed draft title and whose content is the
draft content unchanged (so a whitespace-only draft title, whose trim is
empty, can never be persisted as the title). -/
theorem c6_explicit_title (e : Bool) (fid now srv : String) (f : Bool)
    (s : AppState) (u : User)
    (hu : s.currentUser = some u) (ht : jsTrim s.editorTitle ≠ "") :
    (saveCurrentNote e fid now srv true f s).2 = SaveResult.saved ∧
    ∃ n : Note,
      (saveCurrentNote e fid now srv true f s).1.store = upsert srv s.store n ∧
      n.title = jsTrim s.editorTitle ∧
      n.content = s.editorContent := by
  have hne : ¬(jsTrim s.editorTitle = "" ∧ jsTrim s.editorContent = "") := fun h => ht h.1
  rw [saveCurrentNote_write_eq e fid now srv f s u hu hne]
  refine ⟨rfl, resolvedNote fid now s u, rfl, ?_, rfl⟩
  simp only [resolvedNote]
  rw [if_neg (fun h => ht h.1), if_neg ht]

/-- Witness for C6: the draft title " Groceries " is persisted as
"Groceries". -/
theorem c6_explicit_title_witness :
    jsTrim " Groceries " ≠ "" ∧
    ((saveCurrentNote true "id-6" "2024-01-02T00:00:00Z" "2024-01-02T00:00:01Z" true true
        { demoState with editorTitle := " Groceries ", editorContent := "eggs" }).2 =
      SaveResult.saved ∧
     ∃ n : Note,
       (saveCurrentNote true "id-6" "2024-01-02T00:00:00Z" "2024-01-02T00:00:01Z" true true
           { demoState with editorTitle := " Groceries ", editorContent := "eggs" }).1.store =
         upsert "2024-01-02T00:00:01Z"
           ({ demoState with
               editorTitle := " Groceries ",
               editorContent := "eggs" } : AppState).store n ∧
       n.title = jsTrim " Groceries " ∧
       n.content = "eggs") :=
  ⟨by decide,
   c6_explicit_title true "id-6" "2024-01-02T00:00:00Z" "2024-01-02T00:00:01Z" true
     { demoState with editorTitle := " Groceries ", editorContent := "eggs" } demoUser rfl
     (by decide)⟩

/-! ## C7: read-your-writes after save -/

/-- Counterexample to C7 as stated: a save whose write succeeds reports
success, yet when the reload's fetch fails the real `getNotes` swallows the
error and returns `[]`, so the resulting local collection contains no note at
all — in particular none with the saved id. -/
theorem c7_read_your_writes_cex :
    (saveCurrentNote true "id-7" "2024-01-02T00:00:00Z" "2024-01-02T00:00:01Z" true false
        { demoState with editorContent := "Buy milk" }).2 = SaveResult.saved ∧
    ¬∃ n ∈ (saveCurrentNote true "id-7" "2024-01-02T00:00:00Z" "2024-01-02T00:00:01Z"
              true false { demoState with editorContent := "Buy milk" }).1.notes,
        n.id = "id-7" ∧ n.title ≠ "" := by
  exact ⟨by decide, by decide⟩

/-- C7 (amended): after a successful save whose triggered reload fetch also
succeeds, the reloaded local collection contains a note with the saved id
whose title is non-empty. -/
theorem c7_read_your_writes (e : Bool) (fid now srv : String) (s : AppState) (u : User)
    (hu : s.currentUser = some u)
    (hne : ¬(jsTrim s.editorTitle = "" ∧ jsTrim s.editorContent = "")) :
    (saveCurrentNote e fid now srv true true s).2 = SaveResult.saved ∧
    ∃ n ∈ (saveCurrentNote e fid now srv true true s).1.notes,
      n.id = (match s.selectedNote with
              | some sel => sel.id
              | none => fid) ∧
      n.title ≠ "" := by
  rw [saveCurrentNote_write_eq e fid now srv true s u hu hne]
  obtain ⟨m, hm, hmid, hmtitle, -, hmuid⟩ :=
    upsert_keeps_note_fields srv s.store (resolvedNote fid now s u)
  refine ⟨rfl, m, (mem_getNotes _ _ _).mpr ⟨hm, hmuid⟩, hmid, ?_⟩
  rw [hmtitle]
  simp only [resolvedNote]
  by_cases h1 : jsTrim s.editorTitle = "" ∧ s.editorContent ≠ ""
  · rw [if_pos h1]
    by_cases h2 : substring0 (firstLine s.editorContent) 30 = ""
    · rw [if_pos h2]; decide
    · rw [if_neg h2]; exact h2
  · rw [if_neg h1]
    by_cases h3 : jsTrim s.editorTitle = ""
    · rw [if_pos h3]; decide
    · rw [if_neg h3]; exact h3

/-- Witness for C7 (amended): saving the draft `("", "Buy milk")` as a new
note, with a successful reload, leaves a note with the fresh id and a
non-empty title in the reloaded collection. -/
theorem c7_read_your_writes_witness :
    ¬(jsTrim "" = "" ∧ jsTrim "Buy milk" = "") ∧
    ((saveCurrentNote true "id-7" "2024-01-02T00:00:00Z" "2024-01-02T00:00:01Z" true true
        { demoState with editorContent := "Buy milk" }).2 = SaveResult.saved ∧
     ∃ n ∈ (saveCurrentNote true "id-7" "2024-01-02T00:00:00Z" "2024-01-02T00:00:01Z"
              true true { demoState with editorContent := "Buy milk" }).1.notes,
       n.id = (match ({ demoState with editorContent := "Buy milk" } : AppState).selectedNote with
               | some sel => sel.id
               | none => "id-7") ∧
       n.title ≠ "") :=
  ⟨by decide,
   c7_read_your_writes true "id-7" "2024-01-02T00:00:00Z" "2024-01-02T00:00:01Z"
     { demoState with editorContent := "Buy milk" } demoUser rfl (by decide)⟩

/-! ## C10: discarding never destroys an existing note -/

/-- C10: opening an existing note, clearing title and content to whitespace,
and saving takes the discard path — the remote store and the local collection
are untouched, so the previously persisted note is still present, and the
outcome is the discard outcome (no write or delete is issued). -/
theorem c10_discard_preserves_existing (s : AppState) (note : Note) (t c : String)
    (e : Bool) (fid now srv : String) (w f : Bool) (u : User)
    (hu : s.currentUser = some u) (ht : jsTrim t = "") (hc : jsTrim c = "") :
    (saveCurrentNote e fid now srv w f
        { openNote s note with editorTitle := t, editorContent := c }).1.store = s.store ∧
    (saveCurrentNote e fid now srv w f
        { openNote s note with editorTitle := t, editorContent := c }).1.notes = s.notes ∧
    (note ∈ s.store →
      note ∈ (saveCurrentNote e fid now srv w f
        { openNote s note with editorTitle := t, editorContent := c }).1.store) ∧
    (saveCurrentNote e fid now srv w f
        { openNote s note with editorTitle := t, editorContent := c }).2 =
      SaveResult.discarded := by
  have hu' : ({ openNote s note with editorTitle := t, editorContent := c } : AppState).currentUser
      = some u := by
    simpa [openNote] using hu
  rw [saveCurrentNote_discard_eq e fid now srv w f _ u hu' ht hc]
  exact ⟨rfl, rfl, fun h => h, rfl⟩

/-- Witness for C10: opening the stored sample note, clearing both fields and
saving leaves the store and collection untouched. -/
theorem c10_discard_preserves_existing_witness :
    (jsTrim " " = "" ∧ jsTrim "" = "") ∧
    ((saveCurrentNote true "id-10" "2024-01-02T00:00:00Z" "2024-01-02T00:00:01Z" true true
        { openNote demoState demoNote with editorTitle := " ", editorContent := "" }).1.store =
      demoState.store ∧
     (saveCurrentNote true "id-10" "2024-01-02T00:00:00Z" "2024-01-02T00:00:01Z" true true
        { openNote demoState demoNote with editorTitle := " ", editorContent := "" }).1.notes =
      demoState.notes ∧
     (demoNote ∈ demoState.store →
       demoNote ∈ (saveCurrentNote true "id-10" "2024-01-02T00:00:00Z" "2024-01-02T00:00:01Z"
         true true
         { openNote demoState demoNote with editorTitle := " ", editorContent := "" }).1.store) ∧
     (saveCurrentNote true "id-10" "2024-01-02T00:00:00Z" "2024-01-02T00:00:01Z" true true
        { openNote demoState demoNote with editorTitle := " ", editorContent := "" }).2 =
      SaveResult.discarded) :=
  ⟨⟨by decide, by decide⟩,
   c10_discard_preserves_existing demoState demoNote " " "" true "id-10"
     "2024-01-02T00:00:00Z" "2024-01-02T00:00:01Z" true true demoUser rfl
     (by decide) (by decide)⟩

/-! ## C4: recency grouping is a partition -/

theorem foldl_groupStep_eq (t y : JSDate) (p : String → JSDate) :
    ∀ (l : List Note) (g : NoteGroups),
      l.foldl (groupStep t y p) g =
        ⟨g.today ++ l.filter (inToday t p),
         g.yesterday ++ l.filter (inYesterday t y p),
         g.prev30 ++ l.filter (inPrev30 t y p),
         g.older ++ l.filter (inOlder t y p)⟩ := by
  intro l
  induction l with
  | nil => intro g; simp
  | cons n ns ih =>
    intro g
    rw [List.foldl_cons, ih]
    by_cases h1 : isSameDay (p n.updated_at) t = true
    · simp [groupStep, inToday, inYesterday, inPrev30, inOlder, h1, List.filter_cons]
    · by_cases h2 : isSameDay (p n.updated_at) y = true
      · simp [groupStep, inToday, inYesterday, inPrev30, inOlder, h1, h2, List.filter_cons]
      · by_cases h3 : t.time - (p n.updated_at).time < 2592000000
        · simp [groupStep, inToday, inYesterday, inPrev30, inOlder, h1, h2, h3,
            List.filter_cons]
        · simp [groupStep, inToday, inYesterday, inPrev30, inOlder, h1, h2, h3,
            List.filter_cons]

/-- C4: for a fixed reference date (and the derived yesterday date), every
note of the filtered collection lands in exactly one of the four buckets —
each bucket is precisely the in-order sublist of the filtered collection
satisfying that bucket's condition (so relative order is inherited from the
input), and for every filtered note exactly one of the four bucket conditions
holds. -/
theorem c4_grouping_partition (today yesterday : JSDate) (parse : String → JSDate)
    (notes : List Note) (q : String) (n : Note)
    (hn : n ∈ notes.filter (searchPred q)) :
    (groupedNotes today yesterday parse notes q).today =
      (notes.filter (searchPred q)).filter (inToday today parse) ∧
    (groupedNotes today yesterday parse notes q).yesterday =
      (notes.filter (searchPred q)).filter (inYesterday today yesterday parse) ∧
    (groupedNotes today yesterday parse notes q).prev30 =
      (notes.filter (searchPred q)).filter (inPrev30 today yesterday parse) ∧
    (groupedNotes today yesterday parse notes q).older =
      (notes.filter (searchPred q)).filter (inOlder today yesterday parse) ∧
    (inToday today parse n).toNat + (inYesterday today yesterday parse n).toNat +
      (inPrev30 today yesterday parse n).toNat + (inOlder today yesterday parse n).toNat
      = 1 := by
  have hlen : ¬ notes.length = 0 := by
    intro h0
    rw [List.length_eq_zero] at h0
    subst h0
    simp at hn
  have hg : groupedNotes today yesterday parse notes q =
      ⟨(notes.filter (searchPred q)).filter (inToday today parse),
       (notes.filter (searchPred q)).filter (inYesterday today yesterday parse),
       (notes.filter (searchPred q)).filter (inPrev30 today yesterday parse),
       (notes.filter (searchPred q)).filter (inOlder today yesterday parse)⟩ := by
    unfold groupedNotes
    rw [if_neg hlen, foldl_groupStep_eq]
    simp
  rw [hg]
  refine ⟨rfl, rfl, rfl, rfl, ?_⟩
  have hbool : ∀ a b c : Bool,
      a.toNat + (!a && b).toNat + (!a && !b && c).toNat + (!a && !b && !c).toNat = 1 := by
    decide
  simp only [inToday, inYesterday, inPrev30, inOlder]
  exact hbool _ _ _

/-- Witness for C4 at a one-note collection whose note falls in the Today
bucket. -/
theorem c4_grouping_partition_witness :
    demoNote ∈ [demoNote].filter (searchPred "") ∧
    ((groupedNotes ⟨1, 0, 2024, 1000000⟩ ⟨31, 11, 2023, 913600000⟩
        (fun _ => ⟨1, 0, 2024, 500000⟩) [demoNote] "").today =
      ([demoNote].filter (searchPred "")).filter
        (inToday ⟨1, 0, 2024, 1000000⟩ (fun _ => ⟨1, 0, 2024, 500000⟩)) ∧
     (groupedNotes ⟨1, 0, 2024, 1000000⟩ ⟨31, 11, 2023, 913600000⟩
        (fun _ => ⟨1, 0, 2024, 500000⟩) [demoNote] "").yesterday =
      ([demoNote].filter (searchPred "")).filter
        (inYesterday ⟨1, 0, 2024, 1000000⟩ ⟨31, 11, 2023, 913600000⟩
          (fun _ => ⟨1, 0, 2024, 500000⟩)) ∧
     (groupedNotes ⟨1, 0, 2024, 1000000⟩ ⟨31, 11, 2023, 913600000⟩
        (fun _ => ⟨1, 0, 2024, 500000⟩) [demoNote] "").prev30 =
      ([demoNote].filter (searchPred "")).filter
        (inPrev30 ⟨1, 0, 2024, 1000000⟩ ⟨31, 11, 2023, 913600000⟩
          (fun _ => ⟨1, 0, 2024, 500000⟩)) ∧
     (groupedNotes ⟨1, 0, 2024, 1000000⟩ ⟨31, 11, 2023, 913600000⟩
        (fun _ => ⟨1, 0, 2024, 500000⟩) [demoNote] "").older =
      ([demoNote].filter (searchPred "")).filter
        (inOlder ⟨1, 0, 2024, 1000000⟩ ⟨31, 11, 2023, 913600000⟩
          (fun _ => ⟨1, 0, 2024, 500000⟩)) ∧
     (inToday ⟨1, 0, 2024, 1000000⟩ (fun _ => ⟨1, 0, 2024, 500000⟩) demoNote).toNat +
       (inYesterday ⟨1, 0, 2024, 1000000⟩ ⟨31, 11, 2023, 913600000⟩
         (fun _ => ⟨1, 0, 2024, 500000⟩) demoNote).toNat +
       (inPrev30 ⟨1, 0, 2024, 1000000⟩ ⟨31, 11, 2023, 913600000⟩
         (fun _ => ⟨1, 0, 2024, 500000⟩) demoNote).toNat +
       (inOlder ⟨1, 0, 2024, 1000000⟩ ⟨31, 11, 2023, 913600000⟩
         (fun _ => ⟨1, 0, 2024, 500000⟩) demoNote).toNat = 1) :=
  ⟨by decide,
   c4_grouping_partition ⟨1, 0, 2024, 1000000⟩ ⟨31, 11, 2023, 913600000⟩
     (fun _ => ⟨1, 0, 2024, 500000⟩) [demoNote] "" demoNote (by decide)⟩
